import Mathlib

/-!
# Verification of the LEED credit assessment engine

Shallow embedding of the rule engine, calculation module and multi-document
data consolidator found in `src/utils/LEEDRules.js`, together with the
duplicated rule engine of `src/rules/ruleEngine.js` (classes `RuleEngine` /
`CalculationEngine`).  JavaScript scalar values are modelled by the `Value`
type below; JavaScript objects used as string-keyed records are modelled by
insertion-ordered association lists (`List (String × _)`), which reproduces
the insertion-order iteration of `Object.entries` that the consolidator
relies on.  Non-finite numbers (`NaN`, `±Infinity`) are collapsed into the
`none` case of `Option ℚ`; every numeric comparison against `none` is
`false`, matching the behaviour of `NaN` in every comparison the embedded
code performs, and matching `+Infinity` in the `<= threshold` checks.
-/

set_option autoImplicit false

namespace LEED

/-- A JavaScript scalar parameter value: `null`, a string, or a (finite)
number.  An absent key (`undefined`) is modelled by `Option.none` at the
lookup level. -/
inductive Value where
  | null : Value
  | str (s : String) : Value
  | num (q : ℚ) : Value
  deriving DecidableEq, Repr

/-- JavaScript truthiness of a possibly-absent value: `undefined`, `null`,
`""` and `0` are falsy. -/
def truthy : Option Value → Bool
  | none => false
  | some .null => false
  | some (.str s) => !(s = "")
  | some (.num q) => !(q = 0)

/-- The explicit emptiness test `v === undefined || v === null || v === ''`
used by the engine and the consolidator (note: the number `0` is NOT empty
under this test, unlike truthiness). -/
def isEmptyVal : Option Value → Bool
  | none => true
  | some .null => true
  | some (.str s) => s = ""
  | some (.num _) => false

/-- Property lookup on a JavaScript object modelled as an insertion-ordered
association list; `none` models `undefined`. -/
def jsGet {α : Type} : List (String × α) → String → Option α
  | [], _ => none
  | p :: rest, k => if p.1 = k then some p.2 else jsGet rest k

/-- Property assignment on a JavaScript object: an existing key keeps its
position and gets the new value, a fresh key is appended at the end. -/
def jsSet {α : Type} : List (String × α) → String → α → List (String × α)
  | [], k, v => [(k, v)]
  | p :: rest, k, v => if p.1 = k then (k, v) :: rest else p :: jsSet rest k v

/-- Digits accumulated to a natural number, as decimal. -/
def digitsToNat (ds : List Char) : ℕ :=
  ds.foldl (fun n c => 10 * n + (c.toNat - 48)) 0

/-- Parse a decimal literal `digits[.digits]` at the head of a character
list; returns the parsed value and the unconsumed remainder, or `none` when
no digit is found.  Models the decimal-literal core shared by JavaScript
`parseFloat` and `Number` (the exponent form is not modelled; no embedded
call site supplies exponent-form strings). -/
def parseDec (cs : List Char) : Option (ℚ × List Char) :=
  let ip := cs.takeWhile Char.isDigit
  let rest := cs.dropWhile Char.isDigit
  match rest with
  | '.' :: rest2 =>
    let fp := rest2.takeWhile Char.isDigit
    let rest3 := rest2.dropWhile Char.isDigit
    if ip.isEmpty && fp.isEmpty then none
    else some ((digitsToNat ip : ℚ) + (digitsToNat fp : ℚ) / (10 ^ fp.length : ℚ), rest3)
  | _ => if ip.isEmpty then none else some ((digitsToNat ip : ℚ), rest)

def isSpaceChar (c : Char) : Bool :=
  c = ' ' || c = '\t' || c = '\n' || c = '\r'

/-- Sign handling shared by the two string-to-number conversions. -/
def parseSigned (cs : List Char) : Option (ℚ × List Char) :=
  match cs with
  | '-' :: rest => (parseDec rest).map (fun p => (-p.1, p.2))
  | '+' :: rest => parseDec rest
  | _ => parseDec cs

/-- JavaScript `parseFloat` on a string: skip leading whitespace, parse the
longest numeric prefix, ignore trailing characters; `none` models `NaN`. -/
def parseFloatStr (s : String) : Option ℚ :=
  (parseSigned (s.toList.dropWhile isSpaceChar)).map Prod.fst

/-- JavaScript `parseFloat` applied to a scalar: numbers pass through,
`undefined`/`null` give `NaN` (their string images "undefined"/"null" have
no numeric prefix). -/
def parseFloatVal : Option Value → Option ℚ
  | none => none
  | some .null => none
  | some (.str s) => parseFloatStr s
  | some (.num q) => some q

/-- JavaScript `Number`-style coercion of a scalar, as used by the loose
relational operators (`>=` between a string and a number).  The whole
trimmed string must be numeric; an empty string and `null` coerce to `0`. -/
def toNumberVal : Value → Option ℚ
  | .null => some 0
  | .num q => some q
  | .str s =>
    let cs := (s.toList.dropWhile isSpaceChar).reverse.dropWhile isSpaceChar |>.reverse
    if cs.isEmpty then some 0
    else match parseSigned cs with
      | some (q, []) => some q
      | _ => none

/-- A JavaScript number that may be non-finite: `none` stands for
`NaN`/`±Infinity`. -/
abbrev JSNum := Option ℚ

def jadd : JSNum → JSNum → JSNum
  | some a, some b => some (a + b)
  | _, _ => none

def jmul : JSNum → JSNum → JSNum
  | some a, some b => some (a * b)
  | _, _ => none

/-- Division; a zero divisor produces a non-finite result. -/
def jdiv : JSNum → JSNum → JSNum
  | some a, some b => if b = 0 then none else some (a / b)
  | _, _ => none

/-- `x <= q` with `NaN`/`Infinity` on the left comparing false. -/
def jleQ (x : JSNum) (q : ℚ) : Bool :=
  match x with
  | some a => a ≤ q
  | none => false

/-- `x >= q` with `NaN` comparing false. -/
def jgeQ (x : JSNum) (q : ℚ) : Bool :=
  match x with
  | some a => q ≤ a
  | none => false

/-- `x > q` with `NaN` comparing false. -/
def jgtQ (x : JSNum) (q : ℚ) : Bool :=
  match x with
  | some a => q < a
  | none => false

/-- Loose `v >= q` between a scalar and a number literal (JavaScript coerces
the scalar with `Number`). -/
def jsGeNum (v : Value) (q : ℚ) : Bool :=
  match toNumberVal v with
  | some a => q ≤ a
  | none => false

/-- Rendering of a possibly-non-finite number inside a template string.
`toFixed`/default rendering is modelled by the exact decimal image of the
rational; only distinctness of the surrounding message text matters to the
embedded checks. -/
def numStr : JSNum → String
  | none => "NaN"
  | some q => toString q

/-- `x < q` with `NaN` comparing false. -/
def jltQ (x : JSNum) (q : ℚ) : Bool :=
  match x with
  | some a => a < q
  | none => false

/-- `v === undefined || v === null`. -/
def isUndefOrNull : Option Value → Bool
  | none => true
  | some .null => true
  | some _ => false

/-- `x || d` on a number: `NaN` and `0` fall back to the default. -/
def jsOrDefault (x : JSNum) (d : ℚ) : JSNum :=
  match x with
  | none => some d
  | some q => if q = 0 then some d else some q

def isPrefixList : List Char → List Char → Bool
  | [], _ => true
  | _ :: _, [] => false
  | a :: as, b :: bs => a == b && isPrefixList as bs

def containsSubList : List Char → List Char → Bool
  | [], needle => needle.isEmpty
  | h :: rest, needle => isPrefixList needle (h :: rest) || containsSubList rest needle

/-- JavaScript `hay.includes(needle)` on strings. -/
def containsSub (hay needle : String) : Bool :=
  containsSubList hay.toList needle.toList

/-- A flat parameter map as consumed by the rule evaluators. -/
abbrev Data := List (String × Value)

/-! ## CalculationModule (`src/utils/LEEDRules.js`) -/

structure CalcResult where
  lcodp : JSNum
  lcgwp : JSNum
  unitImpact : JSNum
  totalImpact : JSNum
  totalCapacity : JSNum
  weightedAverage : JSNum
  threshold : ℚ
  units : String
  compliant : Bool
  deriving DecidableEq, Repr

namespace CalculationModule

/-- `CalculationModule.calculateRefrigerantImpact`. -/
def calculateRefrigerantImpact (data : Data) (units : String) : CalcResult :=
  let gwp := parseFloatVal (jsGet data "GWP")
  let odp := jsOrDefault (parseFloatVal (jsGet data "ODP")) 0
  let leakageRate := jdiv (parseFloatVal (jsGet data "Leakage Rate")) (some 100)
  let life := parseFloatVal (jsGet data "Equipment Life")
  let refrigerantCharge := parseFloatVal (jsGet data "Refrigerant charge")
  let coolingCapacity := parseFloatVal (jsGet data "Equipment Cooling Capacity")
  let quantity := jsOrDefault (parseFloatVal (jsGet data "Equipment Quantity")) 1
  let maintenanceFactor : JSNum := some 1
  let lcodp := jdiv (jmul (jmul odp (jadd (jmul leakageRate life) maintenanceFactor)) refrigerantCharge) life
  let lcgwp := jdiv (jmul (jmul gwp (jadd (jmul leakageRate life) maintenanceFactor)) refrigerantCharge) life
  let unitImpact := jadd lcgwp (jmul lcodp (some (10 ^ 5)))
  let totalImpact := jmul (jmul unitImpact coolingCapacity) quantity
  let totalCapacity := jmul coolingCapacity quantity
  let weightedAverage := jdiv totalImpact totalCapacity
  { lcodp := lcodp, lcgwp := lcgwp, unitImpact := unitImpact,
    totalImpact := totalImpact, totalCapacity := totalCapacity,
    weightedAverage := weightedAverage,
    threshold := if units = "IP" then 100 else 13, units := units,
    compliant := jleQ weightedAverage (if units = "IP" then 100 else 13) }

/-- `CalculationModule.calculateSpacePercentage`: throws when the parsed
total is not greater than zero, otherwise returns the unclamped percentage.
The thrown `Error` is modelled by `Except.error` carrying its message. -/
def calculateSpacePercentage (totalSpaces controlledSpaces : Option Value) : Except String JSNum :=
  let total := parseFloatVal totalSpaces
  let controlled := parseFloatVal controlledSpaces
  if jleQ total 0 then Except.error "Total spaces must be greater than 0"
  else Except.ok (jmul (jdiv controlled total) (some 100))

end CalculationModule

/-! ## EACr6RuleSet (`src/utils/LEEDRules.js`) -/

namespace EACr6RuleSet

structure Option1Requirements where
  refrigerantUsed : Bool
  odpZero : Bool
  gwpLessThan50 : Bool
  confirmationStatement : Bool
  deriving DecidableEq, Repr

structure Option1Result where
  compliant : Bool
  gaps : List String
  requirements : Option1Requirements
  deriving DecidableEq, Repr

/-- Final compliance check of `assessOption1`: all requirements met and no
gaps. -/
def option1Finish (r : Option1Result) : Option1Result :=
  if r.gaps.isEmpty &&
      (r.requirements.refrigerantUsed && r.requirements.odpZero &&
       r.requirements.gwpLessThan50 && r.requirements.confirmationStatement) then
    { r with compliant := true }
  else r

/-- Confirmation Statement step of `assessOption1`. -/
def option1Confirmation (data : Data) (r : Option1Result) : Option1Result :=
  option1Finish <|
    if truthy (jsGet data "Confirmation Statement") then
      { r with requirements := { r.requirements with confirmationStatement := true } }
    else
      { r with gaps := r.gaps ++ ["Confirmation Statement"] }

/-- GWP step of `assessOption1`; `data['GWP'] >= 50` uses the loose
JavaScript comparison, and a failure exits early for Option 2. -/
def option1GWP (data : Data) (r : Option1Result) : Option1Result :=
  match jsGet data "GWP" with
  | none => option1Confirmation data { r with gaps := r.gaps ++ ["GWP Value"] }
  | some .null => option1Confirmation data { r with gaps := r.gaps ++ ["GWP Value"] }
  | some v =>
    if jsGeNum v 50 then r
    else option1Confirmation data { r with requirements := { r.requirements with gwpLessThan50 := true } }

/-- ODP step of `assessOption1`; `data['ODP'] !== 0` is the strict
comparison, so any value other than the number `0` exits early for
Option 2. -/
def option1ODP (data : Data) (r : Option1Result) : Option1Result :=
  match jsGet data "ODP" with
  | none => option1GWP data { r with gaps := r.gaps ++ ["ODP Value"] }
  | some .null => option1GWP data { r with gaps := r.gaps ++ ["ODP Value"] }
  | some v =>
    if v ≠ Value.num 0 then r
    else option1GWP data { r with requirements := { r.requirements with odpZero := true } }

/-- `EACr6RuleSet.assessOption1`. -/
def assessOption1 (data : Data) : Option1Result :=
  let r0 : Option1Result := ⟨false, [], ⟨false, false, false, false⟩⟩
  let r1 :=
    if truthy (jsGet data "Refrigerant Used") then
      { r0 with requirements := { r0.requirements with refrigerantUsed := true } }
    else
      { r0 with gaps := r0.gaps ++ ["Refrigerant Used"] }
  option1ODP data r1

structure Option2Result where
  compliant : Bool
  gaps : List String
  nonCompliant : List String
  calculations : Option CalcResult
  deriving DecidableEq, Repr

def requiredParamsOption2 : List String :=
  ["GWP", "Refrigerant charge", "Leakage Rate", "Equipment Life",
   "Equipment Cooling Capacity", "Equipment Quantity"]

/-- `data['Equipment Type'] && data['Equipment Type'].toLowerCase().includes('refrigeration')`
(a truthy non-string never matches). -/
def equipmentTypeIsRefrigeration (data : Data) : Bool :=
  truthy (jsGet data "Equipment Type") &&
    (match jsGet data "Equipment Type" with
     | some (.str s) => containsSub s.toLower "refrigeration"
     | _ => false)

/-- `EACr6RuleSet.assessOption2`.  The `try`/`catch` of the source wraps a
calculation that contains no throwing operation, so the catch branch is
unreachable and the calculation is invoked directly. -/
def assessOption2 (data : Data) (units : String) : Option2Result :=
  let gaps0 := requiredParamsOption2.filter (fun p => isEmptyVal (jsGet data p))
  let gaps1 :=
    if equipmentTypeIsRefrigeration data then
      gaps0 ++ (if truthy (jsGet data "Leakage Test Results") then [] else ["Leakage Test Results"])
            ++ (if truthy (jsGet data "Greenchill Certification Status") then []
                else ["Greenchill Certification Status"])
    else gaps0
  if gaps1.isEmpty then
    let calculations := CalculationModule.calculateRefrigerantImpact data units
    let threshold : ℚ := if units = "IP" then 100 else 13
    if jleQ calculations.weightedAverage threshold then
      { compliant := true, gaps := gaps1, nonCompliant := [], calculations := some calculations }
    else
      { compliant := false, gaps := gaps1,
        nonCompliant := ["Weighted average (" ++ numStr calculations.weightedAverage ++
                         ") exceeds threshold (" ++ toString threshold ++ ")"],
        calculations := some calculations }
  else
    { compliant := false, gaps := gaps1, nonCompliant := [], calculations := none }

inductive EADetails where
  | empty : EADetails
  | opt1 (r : Option1Result) : EADetails
  | opt2 (r : Option2Result) : EADetails
  deriving DecidableEq, Repr

structure EAResult where
  creditId : String
  creditName : String
  awarded : Bool
  points : ℕ
  maxPoints : ℕ
  gaps : List String
  nonCompliant : List String
  option : Option ℕ
  details : EADetails
  deriving DecidableEq, Repr

/-- The guard deciding whether Option 1 is attempted:
`data['Refrigerant Used'] && data['ODP'] !== undefined && data['GWP'] !== undefined`. -/
def hasBasicRefrigerantData (data : Data) : Bool :=
  truthy (jsGet data "Refrigerant Used") && (jsGet data "ODP").isSome && (jsGet data "GWP").isSome

/-- `EACr6RuleSet.assess`. -/
def assess (data : Data) (units : String) : EAResult :=
  let base : EAResult :=
    ⟨"EACr6", "Enhanced Refrigerant Management", false, 0, 1, [], [], none, .empty⟩
  let option1Result := assessOption1 data
  if hasBasicRefrigerantData data && option1Result.compliant then
    { base with
      awarded := true, points := 1, option := some 1,
      details := EADetails.opt1 option1Result }
  else
    let option2Result := assessOption2 data units
    let r := { base with
               option := some 2, details := EADetails.opt2 option2Result,
               gaps := option2Result.gaps, nonCompliant := option2Result.nonCompliant }
    if option2Result.compliant && option2Result.gaps.isEmpty then
      { r with awarded := true, points := 1 }
    else r

end EACr6RuleSet

/-! ## IEQCr5RuleSet (`src/utils/LEEDRules.js`) -/

namespace IEQCr5RuleSet

structure Part1Requirements where
  compliancePath : Bool
  pmvInRange : Bool
  ppdCompliant : Bool
  environmentalDataComplete : Bool
  deriving DecidableEq, Repr

structure Part1Result where
  compliant : Bool
  gaps : List String
  nonCompliant : List String
  requirements : Part1Requirements
  deriving DecidableEq, Repr

def environmentalParams : List String :=
  ["Operative Temperature Range", "Relative Humidity Range",
   "Air Speed", "Clothing Insulation", "Metabolic Rate", "Weather Data Source"]

/-- `IEQCr5RuleSet.assessPart1`.  The environmental-data filter
`!data[param] || data[param] === ''` is exactly non-truthiness. -/
def assessPart1 (data : Data) : Part1Result :=
  let cpOk := truthy (jsGet data "Compliance Path")
  let pmvAbsent := isUndefOrNull (jsGet data "PMV")
  let pmv := parseFloatVal (jsGet data "PMV")
  let pmvOk := jgeQ pmv (-(1 / 2)) && jleQ pmv (1 / 2)
  let ppdAbsent := isUndefOrNull (jsGet data "PPD")
  let ppd := parseFloatVal (jsGet data "PPD")
  let ppdOk := jltQ ppd 10
  let missingEnv := environmentalParams.filter (fun p => !truthy (jsGet data p))
  let gaps := (if cpOk then [] else ["Compliance Path"]) ++
              (if pmvAbsent then ["PMV"] else []) ++
              (if ppdAbsent then ["PPD"] else []) ++ missingEnv
  let nonCompliant :=
    (if !pmvAbsent && !pmvOk then
       ["PMV (" ++ numStr pmv ++ ") is outside acceptable range (-0.5 to 0.5)"] else []) ++
    (if !ppdAbsent && !ppdOk then
       ["PPD (" ++ numStr ppd ++ "%) is not less than 10%"] else [])
  let requirements : Part1Requirements :=
    ⟨cpOk, !pmvAbsent && pmvOk, !ppdAbsent && ppdOk, missingEnv.isEmpty⟩
  let compliant := gaps.isEmpty && nonCompliant.isEmpty &&
    (requirements.compliancePath && requirements.pmvInRange &&
     requirements.ppdCompliant && requirements.environmentalDataComplete)
  ⟨compliant, gaps, nonCompliant, requirements⟩

structure Part2Requirements where
  spacePercentageCompliant : Bool
  groupControlsPresent : Bool
  thermostatLocationsPresent : Bool
  deriving DecidableEq, Repr

structure Part2Result where
  compliant : Bool
  gaps : List String
  nonCompliant : List String
  calculations : Option JSNum
  requirements : Part2Requirements
  deriving DecidableEq, Repr

/-- `IEQCr5RuleSet.assessPart2`: the space-percentage calculation runs only
when both space parameters are truthy; a thrown calculation error is caught
and folded into `nonCompliant` as a single message. -/
def assessPart2 (data : Data) : Part2Result :=
  let tis := jsGet data "Total Individual Spaces"
  let cs := jsGet data "Controlled Spaces"
  let spaceStep : List String × List String × Option JSNum × Bool :=
    if !truthy tis || !truthy cs then
      ((if truthy tis then [] else ["Total Individual Spaces"]) ++
       (if truthy cs then [] else ["Controlled Spaces"]), [], none, false)
    else
      match CalculationModule.calculateSpacePercentage tis cs with
      | .ok percentage =>
        if jgtQ percentage 50 then ([], [], some percentage, true)
        else ([], ["Controlled spaces percentage (" ++ numStr percentage ++
                   "%) is not greater than 50%"], some percentage, false)
      | .error msg => ([], ["Space calculation error: " ++ msg], none, false)
  let gcOk := truthy (jsGet data "Group Controls")
  let tlOk := truthy (jsGet data "Thermostat Locations")
  let gaps := spaceStep.1 ++ (if gcOk then [] else ["Group Controls"]) ++
              (if tlOk then [] else ["Thermostat Locations"])
  let nonCompliant := spaceStep.2.1
  let requirements : Part2Requirements := ⟨spaceStep.2.2.2, gcOk, tlOk⟩
  let compliant := gaps.isEmpty && nonCompliant.isEmpty &&
    (requirements.spacePercentageCompliant && requirements.groupControlsPresent &&
     requirements.thermostatLocationsPresent)
  ⟨compliant, gaps, nonCompliant, spaceStep.2.2.1, requirements⟩

structure IEQParts where
  part1 : Option Part1Result
  part2 : Option Part2Result
  deriving DecidableEq, Repr

structure IEQResult where
  creditId : String
  creditName : String
  awarded : Bool
  points : ℕ
  maxPoints : ℕ
  gaps : List String
  nonCompliant : List String
  parts : IEQParts
  deriving DecidableEq, Repr

/-- `IEQCr5RuleSet.assess` (the `units` argument is unused by this credit,
as in the source). -/
def assess (data : Data) (_units : String) : IEQResult :=
  let part1Result := assessPart1 data
  let part2Result := assessPart2 data
  let gaps := part1Result.gaps ++ part2Result.gaps
  let nonCompliant := part1Result.nonCompliant ++ part2Result.nonCompliant
  let awarded := part1Result.compliant && part2Result.compliant &&
    gaps.isEmpty && nonCompliant.isEmpty
  ⟨"IEQCr5", "Thermal Comfort", awarded, if awarded then 1 else 0, 1,
   gaps, nonCompliant, ⟨some part1Result, some part2Result⟩⟩

end IEQCr5RuleSet

/-! ## RuleEngine (`src/rules/ruleEngine.js`, the duplicated engine) -/

namespace RuleEngine

structure RECalc where
  lcodp : JSNum
  lcgwp : JSNum
  impact : JSNum
  weightedAverage : JSNum
  totalCoolingCapacity : JSNum
  unitSystem : String
  deriving DecidableEq, Repr

/-- `RuleEngine.calculateRefrigerantImpact` (the duplicated engine's
variant: no `|| 1` default on the quantity, and the weighted average is
`impact * totalCoolingCapacity / totalCoolingCapacity`). -/
def calculateRefrigerantImpact (data : Data) (unitSystem : String) : RECalc :=
  let gwp := parseFloatVal (jsGet data "GWP")
  let odp := jsOrDefault (parseFloatVal (jsGet data "ODP")) 0
  let charge := parseFloatVal (jsGet data "Refrigerant Charge")
  let leakageRate := jdiv (parseFloatVal (jsGet data "Leakage Rate")) (some 100)
  let life := parseFloatVal (jsGet data "Equipment Life")
  let coolingCapacity := parseFloatVal (jsGet data "Equipment Cooling Capacity")
  let quantity := parseFloatVal (jsGet data "Equipment Quantity")
  let mr : JSNum := some 1
  let lcodp := jdiv (jmul (jmul odp (jadd (jmul leakageRate life) mr)) charge) life
  let lcgwp := jdiv (jmul (jmul gwp (jadd (jmul leakageRate life) mr)) charge) life
  let impact := jadd lcgwp (jmul lcodp (some (10 ^ 5)))
  let totalCoolingCapacity := jmul coolingCapacity quantity
  let weightedAverage := jdiv (jmul impact totalCoolingCapacity) totalCoolingCapacity
  ⟨lcodp, lcgwp, impact, weightedAverage, totalCoolingCapacity, unitSystem⟩

structure REOption1 where
  compliant : Bool
  gaps : List String
  deriving DecidableEq, Repr

/-- `RuleEngine.checkEACr6Option1`: note that the ODP requirement accepts
both the number `0` and the string `'0'`
(`data['ODP'] !== 0 && data['ODP'] !== '0'`). -/
def checkEACr6Option1 (data : Data) : REOption1 :=
  let ruGap := !truthy (jsGet data "Refrigerant Used")
  let odpFail :=
    match jsGet data "ODP" with
    | none => true
    | some v => v ≠ Value.num 0 && v ≠ Value.str "0"
  let gwpFail := !truthy (jsGet data "GWP") ||
    jgeQ (parseFloatVal (jsGet data "GWP")) 50
  let confGap := !truthy (jsGet data "Confirmation Statement")
  let gaps := (if ruGap then ["Refrigerant Used"] else []) ++
              (if confGap then ["Confirmation Statement"] else [])
  ⟨!ruGap && !odpFail && !gwpFail && !confGap, gaps⟩

structure REOption2 where
  compliant : Bool
  gaps : List String
  nonCompliant : List String
  calculations : Option RECalc
  deriving DecidableEq, Repr

def requiredParamsREOption2 : List String :=
  ["GWP", "Refrigerant Charge", "Leakage Rate", "Equipment Life",
   "Equipment Cooling Capacity", "Equipment Quantity"]

/-- `RuleEngine.checkEACr6Option2` (missing-parameter test is plain
truthiness, `!data[param]`). -/
def checkEACr6Option2 (data : Data) (unitSystem : String) : REOption2 :=
  let gaps := requiredParamsREOption2.filter (fun p => !truthy (jsGet data p))
  if !gaps.isEmpty then
    ⟨false, gaps, [], none⟩
  else
    let calculations := calculateRefrigerantImpact data unitSystem
    let threshold : ℚ := if unitSystem = "SI" then 13 else 100
    if jleQ calculations.weightedAverage threshold then
      ⟨true, [], [], some calculations⟩
    else
      ⟨false, [], ["Weighted average (" ++ numStr calculations.weightedAverage ++
                   ") exceeds threshold (" ++ toString threshold ++ ")"],
       some calculations⟩

structure REResult where
  creditId : String
  creditName : String
  maxPoints : ℕ
  awardedPoints : ℕ
  status : String
  gaps : List String
  nonCompliant : List String
  calculations : Option RECalc
  details : List String
  deriving DecidableEq, Repr

/-- The result skeleton built by `RuleEngine.evaluateCredit` for `EACr6`. -/
def initResultEACr6 : REResult :=
  ⟨"EACr6", "Enhanced Refrigerant Management", 1, 0, "pending", [], [], none, []⟩

/-- `RuleEngine.evaluateEACr6`: a failed Option 1 appends its gaps to the
result before Option 2 is evaluated, and a failed Option 2 appends its gaps
and non-compliance after them. -/
def evaluateEACr6 (data : Data) (unitSystem : String) : REResult :=
  let result := initResultEACr6
  let option1Result := checkEACr6Option1 data
  if option1Result.compliant then
    { result with
      awardedPoints := 1, status := "compliant",
      details := result.details ++ ["Option 1: No Refrigerants or Low-Impact Refrigerants"] }
  else
    let r1 := { result with gaps := result.gaps ++ option1Result.gaps }
    let option2Result := checkEACr6Option2 data unitSystem
    if option2Result.compliant then
      { r1 with
        awardedPoints := 1, status := "compliant",
        details := r1.details ++ ["Option 2: Calculation of Refrigerant Impact"],
        calculations := option2Result.calculations }
    else
      { r1 with
        status := "non_compliant",
        nonCompliant := r1.nonCompliant ++ option2Result.nonCompliant,
        gaps := r1.gaps ++ option2Result.gaps }

end RuleEngine

/-! ## LEEDDataConsolidator (`src/utils/LEEDRules.js`) -/

namespace LEEDDataConsolidator

/-- One conflicting candidate: `{document, value}`. -/
structure Candidate where
  document : String
  value : Value
  deriving DecidableEq, Repr

/-- Per-credit content of one document: `{Parameters: [...], Values: {...}}`. -/
structure CreditData where
  Parameters : List String
  Values : List (String × Value)
  deriving DecidableEq, Repr

/-- The multi-document input `{docName: {creditId: CreditData}}`, in
document-processing (insertion) order. -/
abbrev MultiDocData := List (String × List (String × CreditData))

structure ConsState where
  consolidatedData : List (String × Value)
  dataSources : List (String × String)
  conflicts : List (String × List Candidate)
  processingLog : List String
  deriving Repr

/-- The body of the `parameters.forEach` loop of `consolidateData`: a
non-empty value either becomes the first record of the parameter or
creates/extends its conflict entry. -/
def recordParam (docName : String) (values : List (String × Value)) (st : ConsState)
    (param : String) : ConsState :=
  match jsGet values param with
  | none => st
  | some v =>
    if isEmptyVal (some v) then st
    else
      match jsGet st.consolidatedData param with
      | some v0 =>
        let firstDoc := (jsGet st.dataSources param).getD ""
        let base :=
          match jsGet st.conflicts param with
          | some _ => st.conflicts
          | none => jsSet st.conflicts param [⟨firstDoc, v0⟩]
        let conflicts' := jsSet base param (((jsGet base param).getD []) ++ [⟨docName, v⟩])
        { st with conflicts := conflicts' }
      | none =>
        { st with
          consolidatedData := st.consolidatedData ++ [(param, v)],
          dataSources := st.dataSources ++ [(param, docName)] }

/-- The body of the document loop of `consolidateData`. -/
def processDoc (creditId : String) (st : ConsState)
    (doc : String × List (String × CreditData)) : ConsState :=
  match jsGet doc.2 creditId with
  | none =>
    { st with
      processingLog := st.processingLog ++
        ["Document " ++ doc.1 ++ " does not contain " ++ creditId ++ " data"] }
  | some creditData =>
    creditData.Parameters.foldl (recordParam doc.1 creditData.Values) st

/-- The extraction phase of `consolidateData`, before conflict
resolution. -/
def consolidationState (multiDocData : MultiDocData) (creditId : String) : ConsState :=
  multiDocData.foldl (processDoc creditId) ⟨[], [], [], []⟩

/-- A manual resolution choice `{document: label}`. -/
structure ManualChoice where
  document : String
  deriving DecidableEq, Repr

structure ResolveOptions where
  customPriorities : List (String × ℚ)
  manualResolutions : List (String × ManualChoice)
  dataSources : List (String × String)
  deriving Repr

structure LogEntry where
  parameter : String
  conflicts : List Candidate
  resolvedValue : Value
  resolvedSource : String
  method : String
  deriving DecidableEq, Repr

structure Resolved where
  data : List (String × Value)
  sources : List (String × String)
  resolutionLog : List LogEntry
  deriving Repr

/-- The built-in `priorityRules` table, in insertion order. -/
def priorityRules : List (String × ℚ) :=
  [("manufacturer_datasheet", 10), ("equipment_schedule", 8), ("specification", 7),
   ("calculation", 6), ("drawing", 5), ("narrative", 4), ("default", 1)]

/-- `{...this.priorityRules, ...customPriorities}`: custom keys override in
place, fresh keys are appended. -/
def mergePriorities (customPriorities : List (String × ℚ)) : List (String × ℚ) :=
  customPriorities.foldl (fun acc pr => jsSet acc pr.1 pr.2) priorityRules

/-- `getDocumentPriority`: first case-insensitive substring match wins,
otherwise `priorities.default || 1`. -/
def getDocumentPriority (docName : String) (priorities : List (String × ℚ)) : ℚ :=
  match priorities.find? (fun pr => containsSub docName.toLower pr.1.toLower) with
  | some pr => pr.2
  | none =>
    match jsGet priorities "default" with
    | some v => if v = 0 then 1 else v
    | none => 1

/-- `resolveBypriority`: highest score wins, ties broken by earliest
arrival (strict `>` comparison).  The source would fault on an empty
candidate list; that case is never reached and returns `none` here. -/
def resolveBypriority (conflictList : List Candidate)
    (customPriorities : List (String × ℚ)) : Option (Value × String) :=
  let priorities := mergePriorities customPriorities
  match conflictList with
  | [] => none
  | c0 :: _ =>
    let best := conflictList.foldl
      (fun b c =>
        let pr := getDocumentPriority c.document priorities
        if b.2 < pr then (c, pr) else b)
      (c0, getDocumentPriority c0.document priorities)
    some (best.1.value, best.1.document)

/-- The per-conflict `switch (strategy)` of `resolveConflicts`: `none`
models the case in which `resolvedValue` stays `undefined` and the
parameter is skipped. -/
def resolveEntry (data : List (String × Value)) (strategy : String) (options : ResolveOptions)
    (parameter : String) (conflictList : List Candidate) : Option (Value × String × String) :=
  if strategy = "priority" then
    match resolveBypriority conflictList options.customPriorities with
    | some r => some (r.1, r.2, "priority-based")
    | none => none
  else if strategy = "latest" then
    match conflictList.getLast? with
    | some latestConflict => some (latestConflict.value, latestConflict.document, "latest-document")
    | none => none
  else if strategy = "manual" then
    match jsGet options.manualResolutions parameter with
    | some manualChoice =>
      match conflictList.find? (fun c => c.document = manualChoice.document) with
      | some chosenConflict => some (chosenConflict.value, chosenConflict.document, "manual-selection")
      | none => none
    | none => none
  else
    match jsGet data parameter with
    | some v => some (v, (jsGet options.dataSources parameter).getD "", "first-occurrence")
    | none => none

/-- The body of the `Object.entries(conflicts).forEach` loop of
`resolveConflicts`: a resolved parameter overwrites the value/source and
appends a log entry, an unresolved one is skipped. -/
def resolveStep (data : List (String × Value)) (strategy : String) (options : ResolveOptions)
    (acc : Resolved) (entry : String × List Candidate) : Resolved :=
  match resolveEntry data strategy options entry.1 entry.2 with
  | some (v, s, m) =>
    { data := jsSet acc.data entry.1 v,
      sources := jsSet acc.sources entry.1 s,
      resolutionLog := acc.resolutionLog ++ [⟨entry.1, entry.2, v, s, m⟩] }
  | none => acc

/-- `LEEDDataConsolidator.resolveConflicts`. -/
def resolveConflicts (data : List (String × Value)) (conflicts : List (String × List Candidate))
    (strategy : String) (options : ResolveOptions) : Resolved :=
  conflicts.foldl (resolveStep data strategy options) ⟨data, options.dataSources, []⟩

structure ConsOptions where
  conflictResolution : String
  customPriorities : List (String × ℚ)
  manualResolutions : List (String × ManualChoice)
  deriving Repr

structure ProcessingInfo where
  documentsProcessed : ℕ
  parametersFound : ℕ
  conflictsDetected : ℕ
  conflictsResolved : ℕ
  deriving DecidableEq, Repr

structure ConsResult where
  data : List (String × Value)
  sources : List (String × String)
  conflicts : List (String × List Candidate)
  resolutionLog : List LogEntry
  processingInfo : ProcessingInfo
  processingLog : List String
  deriving Repr

/-- `LEEDDataConsolidator.consolidateData`. -/
def consolidateData (multiDocData : MultiDocData) (creditId : String)
    (options : ConsOptions) : ConsResult :=
  let st := consolidationState multiDocData creditId
  let resolved := resolveConflicts st.consolidatedData st.conflicts options.conflictResolution
    ⟨options.customPriorities, options.manualResolutions, st.dataSources⟩
  { data := resolved.data, sources := resolved.sources, conflicts := st.conflicts,
    resolutionLog := resolved.resolutionLog,
    processingInfo := ⟨multiDocData.length, resolved.data.length,
                       st.conflicts.length, resolved.resolutionLog.length⟩,
    processingLog := st.processingLog }

/-! ### Characterization of the extraction loop

`suppliers creditId docs p` lists, in document-processing order, one
candidate `{document, value}` for every occurrence of parameter `p` in a
document's declared-parameter list whose value for `p` is non-empty.  The
lemmas below show that the extraction loop records the first supplier in
`consolidatedData`/`dataSources` and collects the full supplier list as the
conflict entry exactly when there are at least two suppliers. -/

/-- Contribution of one declared parameter `q` of one document to the
supplier list of parameter `p`. -/
def deltaParam (docName : String) (values : List (String × Value)) (p q : String) :
    List Candidate :=
  if q = p then
    match jsGet values p with
    | none => []
    | some v => if isEmptyVal (some v) then [] else [⟨docName, v⟩]
  else []

/-- Candidates contributed by one document for parameter `p`. -/
def suppliersOfDoc (creditId p : String) (doc : String × List (String × CreditData)) :
    List Candidate :=
  match jsGet doc.2 creditId with
  | none => []
  | some cd => (cd.Parameters.map (deltaParam doc.1 cd.Values p)).flatten

/-- All candidates for parameter `p` across the document set, in
processing order. -/
def suppliers (creditId : String) (docs : MultiDocData) (p : String) : List Candidate :=
  (docs.map (suppliersOfDoc creditId p)).flatten

/-- Invariant of the extraction loop, for one parameter `p`, relative to
the suppliers `S` seen so far. -/
def ConsInv (S : List Candidate) (st : ConsState) (p : String) : Prop :=
  jsGet st.consolidatedData p = S.head?.map Candidate.value ∧
  jsGet st.dataSources p = S.head?.map Candidate.document ∧
  jsGet st.conflicts p = (if 2 ≤ S.length then some S else none)

end LEEDDataConsolidator

open LEEDDataConsolidator

/-! ## Concrete data for witnesses -/

/-- The spec's Option 1 end-to-end example. -/
def dataEACr6Award : Data :=
  [("ODP", Value.num 0), ("GWP", Value.num 4),
   ("Refrigerant Used", Value.str "R-1234ze(E)"),
   ("Confirmation Statement", Value.str "Yes")]

/-- A fully compliant thermal-comfort parameter map. -/
def dataIEQAward : Data :=
  [("Compliance Path", Value.str "ASHRAE 55-2017"), ("PMV", Value.num 0),
   ("PPD", Value.num 7), ("Operative Temperature Range", Value.str "68-75F"),
   ("Relative Humidity Range", Value.str "30-60%"), ("Air Speed", Value.str "0.1 m/s"),
   ("Clothing Insulation", Value.str "0.5 clo"), ("Metabolic Rate", Value.str "1.1 met"),
   ("Weather Data Source", Value.str "TMY3"), ("Total Individual Spaces", Value.num 100),
   ("Controlled Spaces", Value.num 80), ("Group Controls", Value.str "Yes"),
   ("Thermostat Locations", Value.str "Documented")]

/-- Option 1 satisfied exactly at the boundary: ODP = 0, GWP = 49.999. -/
def dataC3 : Data :=
  [("Refrigerant Used", Value.str "R-32"), ("ODP", Value.num 0),
   ("GWP", Value.num (49999 / 1000)), ("Confirmation Statement", Value.str "Yes")]

/-- ODP supplied as the string `"0"`. -/
def dataOdpString : Data :=
  [("Refrigerant Used", Value.str "R-32"), ("ODP", Value.str "0"),
   ("GWP", Value.num 40), ("Confirmation Statement", Value.str "Yes")]

/-- A truthy `"0"` string for the total spaces makes the parsed total 0 and
the space calculation throw. -/
def dataSpacesError : Data :=
  [("Total Individual Spaces", Value.str "0"), ("Controlled Spaces", Value.num 5)]

/-- Two documents supplying differing GWP values (675 then 700). -/
def gwpConflictDocs : MultiDocData :=
  [("design_narrative", [("EACr6", ⟨["GWP"], [("GWP", Value.num 675)]⟩)]),
   ("field_report", [("EACr6", ⟨["GWP"], [("GWP", Value.num 700)]⟩)])]

/-- Two documents supplying the identical GWP value 675. -/
def identicalValueDocs : MultiDocData :=
  [("design_narrative", [("EACr6", ⟨["GWP"], [("GWP", Value.num 675)]⟩)]),
   ("field_report", [("EACr6", ⟨["GWP"], [("GWP", Value.num 675)]⟩)])]

/-! ## Association-list lemmas -/

@[simp] theorem jsGet_nil {α : Type} (k : String) : jsGet ([] : List (String × α)) k = none := rfl

@[simp] theorem jsGet_cons {α : Type} (p : String × α) (rest : List (String × α)) (k : String) :
    jsGet (p :: rest) k = if p.1 = k then some p.2 else jsGet rest k := rfl

theorem jsGet_jsSet_self {α : Type} (l : List (String × α)) (k : String) (v : α) :
    jsGet (jsSet l k v) k = some v := by
  induction l with
  | nil => simp [jsSet]
  | cons p rest ih =>
    by_cases h : p.1 = k
    · simp [jsSet, h]
    · simp [jsSet, h, ih]

theorem jsGet_jsSet_ne {α : Type} (l : List (String × α)) (k k' : String) (v : α)
    (hne : k' ≠ k) : jsGet (jsSet l k v) k' = jsGet l k' := by
  have hkk : ¬ (k = k') := fun h => hne h.symm
  induction l with
  | nil => simp [jsSet, hkk]
  | cons p rest ih =>
    by_cases h : p.1 = k
    · simp [jsSet, h, hkk, h ▸ hkk]
    · simp [jsSet, h, ih]

theorem jsGet_append_of_none {α : Type} (l l' : List (String × α)) (k : String)
    (h : jsGet l k = none) : jsGet (l ++ l') k = jsGet l' k := by
  induction l with
  | nil => simp
  | cons p rest ih =>
    by_cases hp : p.1 = k
    · simp [hp] at h
    · simp only [jsGet, hp] at h
      simpa [jsGet, hp] using ih h

theorem jsGet_append_of_some {α : Type} (l l' : List (String × α)) (k : String) (v : α)
    (h : jsGet l k = some v) : jsGet (l ++ l') k = some v := by
  induction l with
  | nil => simp at h
  | cons p rest ih =>
    by_cases hp : p.1 = k
    · simp [hp] at h
      simp [jsGet, hp, h]
    · simp only [jsGet, hp] at h
      simpa [jsGet, hp] using ih h

namespace LEEDDataConsolidator

theorem jsGet_append_one_ne {α : Type} (l : List (String × α)) (q p : String) (v : α)
    (h : q ≠ p) : jsGet (l ++ [(q, v)]) p = jsGet l p := by
  cases hl : jsGet l p with
  | some w => exact jsGet_append_of_some _ _ _ _ hl
  | none => rw [jsGet_append_of_none _ _ _ hl]; simp [jsGet, h]

theorem consInv_recordParam (docName : String) (values : List (String × Value))
    (st : ConsState) (p q : String) (S : List Candidate) (h : ConsInv S st p) :
    ConsInv (S ++ deltaParam docName values p q) (recordParam docName values st q) p := by
  obtain ⟨h1, h2, h3⟩ := h
  by_cases hq : q = p
  · subst hq
    rcases hv : jsGet values q with _ | v
    · simpa [ConsInv, recordParam, hv, deltaParam] using ⟨h1, h2, h3⟩
    · by_cases he : isEmptyVal (some v) = true
      · simpa [ConsInv, recordParam, hv, he, deltaParam] using ⟨h1, h2, h3⟩
      · rcases hc : jsGet st.consolidatedData q with _ | v0
        · -- first supplier: the parameter is freshly recorded
          rw [hc] at h1
          have hS : S = [] := by
            cases S with
            | nil => rfl
            | cons c S' => simp at h1
          subst hS
          have h2' : jsGet st.dataSources q = none := by simpa using h2
          refine ⟨?_, ?_, ?_⟩
          · simp [recordParam, hv, he, hc, deltaParam,
              jsGet_append_of_none _ _ _ hc, jsGet]
          · simp [recordParam, hv, he, hc, deltaParam,
              jsGet_append_of_none _ _ _ h2', jsGet]
          · simpa [recordParam, hv, he, hc, deltaParam] using h3
        · -- later supplier: the conflict entry is created or extended
          rw [hc] at h1
          obtain ⟨c, S', rfl⟩ : ∃ c S', S = c :: S' := by
            cases S with
            | nil => simp at h1
            | cons c S' => exact ⟨c, S', rfl⟩
          obtain ⟨cdoc, cval⟩ := c
          have hcv : v0 = cval := by simpa using h1
          subst hcv
          have hcd : jsGet st.dataSources q = some cdoc := by simpa using h2
          have hdelta : deltaParam docName values q q = [⟨docName, v⟩] := by
            simp [deltaParam, hv, he]
          rcases hcf : jsGet st.conflicts q with _ | L
          · -- no conflict entry yet: S is the singleton first supplier
            rw [hcf] at h3
            have hS' : S' = [] := by
              by_cases hlen : 2 ≤ ((⟨cdoc, v0⟩ : Candidate) :: S').length
              · rw [if_pos hlen] at h3; simp at h3
              · simp only [List.length_cons] at hlen
                exact List.length_eq_zero.mp (by omega)
            subst hS'
            refine ⟨?_, ?_, ?_⟩
            · simp [recordParam, hv, he, hc, hcf, hcd, hdelta]
            · simp [recordParam, hv, he, hc, hcf, hcd, hdelta]
            · simp [recordParam, hv, he, hc, hcf, hcd, hdelta,
                jsGet_jsSet_self]
          · -- conflict entry already present: it equals S and is extended
            rw [hcf] at h3
            by_cases hlen : 2 ≤ ((⟨cdoc, v0⟩ : Candidate) :: S').length
            · rw [if_pos hlen] at h3
              have hLS : L = (⟨cdoc, v0⟩ : Candidate) :: S' := Option.some_inj.mp h3
              subst hLS
              refine ⟨?_, ?_, ?_⟩
              · simp [recordParam, hv, he, hc, hcf, hdelta]
              · simpa [recordParam, hv, he, hc, hcf, hdelta] using hcd
              · have hlen' :
                    2 ≤ (((⟨cdoc, v0⟩ : Candidate) :: S') ++ [(⟨docName, v⟩ : Candidate)]).length := by
                  simp
                simp [recordParam, hv, he, hc, hcf, hdelta, jsGet_jsSet_self, hlen']
            · rw [if_neg hlen] at h3; cases h3
  · -- a different parameter leaves the projections at `p` unchanged
    have hpq : p ≠ q := fun hh => hq hh.symm
    have hdelta : deltaParam docName values p q = [] := by simp [deltaParam, hq]
    rw [hdelta, List.append_nil]
    rcases hv : jsGet values q with _ | v
    · simpa [ConsInv, recordParam, hv] using ⟨h1, h2, h3⟩
    · by_cases he : isEmptyVal (some v) = true
      · simpa [ConsInv, recordParam, hv, he] using ⟨h1, h2, h3⟩
      · rcases hc : jsGet st.consolidatedData q with _ | v0
        · refine ⟨?_, ?_, ?_⟩
          · simpa [recordParam, hv, he, hc, jsGet_append_one_ne _ _ _ _ hq] using h1
          · simpa [recordParam, hv, he, hc, jsGet_append_one_ne _ _ _ _ hq] using h2
          · simpa [recordParam, hv, he, hc] using h3
        · rcases hcf : jsGet st.conflicts q with _ | L
          · refine ⟨?_, ?_, ?_⟩
            · simpa [recordParam, hv, he, hc, hcf] using h1
            · simpa [recordParam, hv, he, hc, hcf] using h2
            · have hrec : (recordParam docName values st q).conflicts =
                  jsSet (jsSet st.conflicts q [⟨(jsGet st.dataSources q).getD "", v0⟩]) q
                    (((jsGet (jsSet st.conflicts q
                        [⟨(jsGet st.dataSources q).getD "", v0⟩]) q).getD []) ++
                      [⟨docName, v⟩]) := by
                simp [recordParam, hv, he, hc, hcf]
              rw [hrec, jsGet_jsSet_ne _ _ _ _ hpq, jsGet_jsSet_ne _ _ _ _ hpq]
              exact h3
          · refine ⟨?_, ?_, ?_⟩
            · simpa [recordParam, hv, he, hc, hcf] using h1
            · simpa [recordParam, hv, he, hc, hcf] using h2
            · have hrec : (recordParam docName values st q).conflicts =
                  jsSet st.conflicts q (((jsGet st.conflicts q).getD []) ++ [⟨docName, v⟩]) := by
                simp [recordParam, hv, he, hc, hcf]
              rw [hrec, jsGet_jsSet_ne _ _ _ _ hpq]
              exact h3

theorem consInv_foldParams (docName : String) (values : List (String × Value)) (p : String) :
    ∀ (params : List String) (S : List Candidate) (st : ConsState), ConsInv S st p →
    ConsInv (S ++ (params.map (deltaParam docName values p)).flatten)
      (params.foldl (recordParam docName values) st) p := by
  intro params
  induction params with
  | nil => intro S st h; simpa using h
  | cons q rest ih =>
    intro S st h
    have h1 := consInv_recordParam docName values st p q S h
    have h2 := ih (S ++ deltaParam docName values p q) _ h1
    simpa [List.append_assoc] using h2

theorem consInv_processDoc (creditId p : String) (st : ConsState)
    (doc : String × List (String × CreditData)) (S : List Candidate) (h : ConsInv S st p) :
    ConsInv (S ++ suppliersOfDoc creditId p doc) (processDoc creditId st doc) p := by
  rcases hd : jsGet doc.2 creditId with _ | cd
  · simpa [ConsInv, suppliersOfDoc, processDoc, hd] using h
  · simpa [suppliersOfDoc, processDoc, hd] using
      consInv_foldParams doc.1 cd.Values p cd.Parameters S st h

theorem consInv_foldDocs (creditId p : String) :
    ∀ (docs : MultiDocData) (S : List Candidate) (st : ConsState), ConsInv S st p →
    ConsInv (S ++ suppliers creditId docs p) (docs.foldl (processDoc creditId) st) p := by
  intro docs
  induction docs with
  | nil => intro S st h; simpa [suppliers] using h
  | cons d rest ih =>
    intro S st h
    have h1 := consInv_processDoc creditId p st d S h
    have h2 := ih _ _ h1
    simpa [suppliers, List.append_assoc] using h2

/-- Full characterization of the extraction loop at every parameter: the
first supplier is recorded as value and source, and the conflict entry is
exactly the supplier list as soon as there are at least two suppliers. -/
theorem consolidation_characterization (docs : MultiDocData) (creditId p : String) :
    ConsInv (suppliers creditId docs p) (consolidationState docs creditId) p := by
  have h0 : ConsInv [] (⟨[], [], [], []⟩ : ConsState) p := by
    refine ⟨rfl, rfl, ?_⟩
    simp [jsGet]
  simpa using consInv_foldDocs creditId p docs [] _ h0

theorem mem_keys_jsSet {α : Type} (l : List (String × α)) (k x : String) (v : α)
    (h : x ∈ (jsSet l k v).map Prod.fst) : x ∈ l.map Prod.fst ∨ x = k := by
  induction l with
  | nil => simpa [jsSet] using h
  | cons p rest ih =>
    by_cases hp : p.1 = k
    · simp only [jsSet, hp, if_pos] at h
      simp only [List.map_cons] at h
      rcases List.mem_cons.mp h with h' | h'
      · right; exact h'
      · left; exact List.mem_cons.mpr (Or.inr h')
    · simp only [jsSet, hp, if_neg, ite_false] at h
      simp only [List.map_cons] at h
      rcases List.mem_cons.mp h with h' | h'
      · left; exact List.mem_cons.mpr (Or.inl h')
      · rcases ih h' with h'' | h''
        · left; exact List.mem_cons.mpr (Or.inr h'')
        · right; exact h''

theorem nodup_keys_jsSet {α : Type} (l : List (String × α)) (k : String) (v : α)
    (h : (l.map Prod.fst).Nodup) : ((jsSet l k v).map Prod.fst).Nodup := by
  induction l with
  | nil => simp [jsSet]
  | cons p rest ih =>
    simp only [List.map_cons, List.nodup_cons] at h
    by_cases hp : p.1 = k
    · simp only [jsSet, hp, if_pos, List.map_cons, List.nodup_cons]
      exact ⟨hp ▸ h.1, h.2⟩
    · simp only [jsSet, hp, if_neg, ite_false, List.map_cons, List.nodup_cons]
      refine ⟨fun hmem => ?_, ih h.2⟩
      rcases mem_keys_jsSet rest k p.1 v hmem with h' | h'
      · exact h.1 h'
      · exact hp h'

theorem nodup_conflictsKeys_recordParam (docName : String) (values : List (String × Value))
    (st : ConsState) (q : String) (h : (st.conflicts.map Prod.fst).Nodup) :
    ((recordParam docName values st q).conflicts.map Prod.fst).Nodup := by
  rcases hv : jsGet values q with _ | v
  · simpa [recordParam, hv] using h
  · by_cases he : isEmptyVal (some v) = true
    · simpa [recordParam, hv, he] using h
    · rcases hc : jsGet st.consolidatedData q with _ | v0
      · simpa [recordParam, hv, he, hc] using h
      · rcases hcf : jsGet st.conflicts q with _ | L
        · simpa [recordParam, hv, he, hc, hcf] using
            nodup_keys_jsSet _ q _ (nodup_keys_jsSet _ q _ h)
        · simpa [recordParam, hv, he, hc, hcf] using nodup_keys_jsSet _ q _ h

theorem nodup_conflictsKeys_processDoc (creditId : String) (st : ConsState)
    (doc : String × List (String × CreditData)) (h : (st.conflicts.map Prod.fst).Nodup) :
    ((processDoc creditId st doc).conflicts.map Prod.fst).Nodup := by
  rcases hd : jsGet doc.2 creditId with _ | cd
  · simpa [processDoc, hd] using h
  · simp only [processDoc, hd]
    induction cd.Parameters generalizing st with
    | nil => simpa using h
    | cons q rest ih =>
      exact ih _ (nodup_conflictsKeys_recordParam doc.1 cd.Values st q h)

theorem nodup_conflictsKeys (docs : MultiDocData) (creditId : String) :
    ((consolidationState docs creditId).conflicts.map Prod.fst).Nodup := by
  have h : ∀ (l : MultiDocData) (st : ConsState), (st.conflicts.map Prod.fst).Nodup →
      ((l.foldl (processDoc creditId) st).conflicts.map Prod.fst).Nodup := by
    intro l
    induction l with
    | nil => intro st h; simpa using h
    | cons d rest ih =>
      intro st h
      exact ih _ (nodup_conflictsKeys_processDoc creditId st d h)
  exact h docs ⟨[], [], [], []⟩ (by simp)

theorem jsGet_mem {α : Type} (l : List (String × α)) (k : String) (v : α)
    (h : jsGet l k = some v) : (k, v) ∈ l := by
  induction l with
  | nil => simp at h
  | cons p rest ih =>
    by_cases hp : p.1 = k
    · simp only [jsGet_cons, hp, if_pos] at h
      have : p = (k, v) := by
        cases p
        simp_all
      exact this ▸ List.mem_cons_self _ _
    · simp only [jsGet_cons, hp, ite_false] at h
      exact List.mem_cons.mpr (Or.inr (ih h))

theorem resolveFold_not_mem (data : List (String × Value)) (strategy : String)
    (options : ResolveOptions) (p : String) :
    ∀ (entries : List (String × List Candidate)) (acc : Resolved),
    (∀ e ∈ entries, e.1 ≠ p) →
    jsGet (entries.foldl (resolveStep data strategy options) acc).data p = jsGet acc.data p ∧
    jsGet (entries.foldl (resolveStep data strategy options) acc).sources p =
      jsGet acc.sources p ∧
    (entries.foldl (resolveStep data strategy options) acc).resolutionLog.filter
        (fun le => le.parameter = p) =
      acc.resolutionLog.filter (fun le => le.parameter = p) := by
  intro entries
  induction entries with
  | nil => intro acc _; exact ⟨rfl, rfl, rfl⟩
  | cons e rest ih =>
    intro acc h
    have he : e.1 ≠ p := h e (List.mem_cons_self _ _)
    have hrest : ∀ e' ∈ rest, e'.1 ≠ p := fun e' he' => h e' (List.mem_cons.mpr (Or.inr he'))
    have hstep : jsGet (resolveStep data strategy options acc e).data p = jsGet acc.data p ∧
        jsGet (resolveStep data strategy options acc e).sources p = jsGet acc.sources p ∧
        (resolveStep data strategy options acc e).resolutionLog.filter
            (fun le => le.parameter = p) =
          acc.resolutionLog.filter (fun le => le.parameter = p) := by
      rcases hre : resolveEntry data strategy options e.1 e.2 with _ | ⟨v, s, m⟩
      · simp [resolveStep, hre]
      · refine ⟨?_, ?_, ?_⟩
        · simp only [resolveStep, hre]
          exact jsGet_jsSet_ne _ _ _ _ (fun hh => he hh.symm)
        · simp only [resolveStep, hre]
          exact jsGet_jsSet_ne _ _ _ _ (fun hh => he hh.symm)
        · simp [resolveStep, hre, List.filter_append, he]
    obtain ⟨hd, hs, hl⟩ := ih (resolveStep data strategy options acc e) hrest
    exact ⟨hd.trans hstep.1, hs.trans hstep.2.1, hl.trans hstep.2.2⟩

theorem keys_nodup_not_mem_rest (p : String) (L : List Candidate)
    (e : String × List Candidate) (rest : List (String × List Candidate))
    (hnd : ((e :: rest).map Prod.fst).Nodup) (hmem : (p, L) ∈ e :: rest) (hep : e.1 = p) :
    e = (p, L) ∧ ∀ e' ∈ rest, e'.1 ≠ p := by
  simp only [List.map_cons, List.nodup_cons] at hnd
  have hrest : ∀ e' ∈ rest, e'.1 ≠ p := by
    intro e' he' hcon
    exact hnd.1 (hep ▸ hcon ▸ List.mem_map_of_mem Prod.fst he')
  rcases List.mem_cons.mp hmem with h | h
  · exact ⟨h.symm, hrest⟩
  · exact absurd rfl (hrest (p, L) h)

theorem resolveFold_mem (data : List (String × Value)) (strategy : String)
    (options : ResolveOptions) (p : String) (L : List Candidate) :
    ∀ (entries : List (String × List Candidate)) (acc : Resolved),
    ((entries.map Prod.fst).Nodup) → (p, L) ∈ entries →
    (∀ v s m, resolveEntry data strategy options p L = some (v, s, m) →
      jsGet (entries.foldl (resolveStep data strategy options) acc).data p = some v ∧
      jsGet (entries.foldl (resolveStep data strategy options) acc).sources p = some s ∧
      (entries.foldl (resolveStep data strategy options) acc).resolutionLog.filter
          (fun le => le.parameter = p) =
        acc.resolutionLog.filter (fun le => le.parameter = p) ++ [⟨p, L, v, s, m⟩]) ∧
    (resolveEntry data strategy options p L = none →
      jsGet (entries.foldl (resolveStep data strategy options) acc).data p =
        jsGet acc.data p ∧
      jsGet (entries.foldl (resolveStep data strategy options) acc).sources p =
        jsGet acc.sources p ∧
      (entries.foldl (resolveStep data strategy options) acc).resolutionLog.filter
          (fun le => le.parameter = p) =
        acc.resolutionLog.filter (fun le => le.parameter = p)) := by
  intro entries
  induction entries with
  | nil => intro acc _ hmem; simp at hmem
  | cons e rest ih =>
    intro acc hnd hmem
    by_cases hep : e.1 = p
    · obtain ⟨rfl, hrest⟩ := keys_nodup_not_mem_rest p L e rest hnd hmem hep
      constructor
      · intro v s m hre
        obtain ⟨hd, hs, hl⟩ :=
          resolveFold_not_mem data strategy options p rest
            (resolveStep data strategy options acc (p, L)) hrest
        refine ⟨?_, ?_, ?_⟩
        · rw [List.foldl_cons, hd]
          simp [resolveStep, hre, jsGet_jsSet_self]
        · rw [List.foldl_cons, hs]
          simp [resolveStep, hre, jsGet_jsSet_self]
        · rw [List.foldl_cons, hl]
          simp [resolveStep, hre, List.filter_append]
      · intro hre
        obtain ⟨hd, hs, hl⟩ :=
          resolveFold_not_mem data strategy options p rest
            (resolveStep data strategy options acc (p, L)) hrest
        refine ⟨?_, ?_, ?_⟩
        · rw [List.foldl_cons, hd]; simp [resolveStep, hre]
        · rw [List.foldl_cons, hs]; simp [resolveStep, hre]
        · rw [List.foldl_cons, hl]; simp [resolveStep, hre]
    · have hmem' : (p, L) ∈ rest := by
        rcases List.mem_cons.mp hmem with h | h
        · exact absurd (congrArg Prod.fst h.symm) hep
        · exact h
      have hnd' : ((rest.map Prod.fst).Nodup) := by
        simp only [List.map_cons, List.nodup_cons] at hnd
        exact hnd.2
      have hstep : jsGet (resolveStep data strategy options acc e).data p = jsGet acc.data p ∧
          jsGet (resolveStep data strategy options acc e).sources p = jsGet acc.sources p ∧
          (resolveStep data strategy options acc e).resolutionLog.filter
              (fun le => le.parameter = p) =
            acc.resolutionLog.filter (fun le => le.parameter = p) := by
        rcases hre : resolveEntry data strategy options e.1 e.2 with _ | ⟨v, s, m⟩
        · simp [resolveStep, hre]
        · refine ⟨?_, ?_, ?_⟩
          · simp only [resolveStep, hre]
            exact jsGet_jsSet_ne _ _ _ _ (fun hh => hep hh.symm)
          · simp only [resolveStep, hre]
            exact jsGet_jsSet_ne _ _ _ _ (fun hh => hep hh.symm)
          · simp [resolveStep, hre, List.filter_append, hep]
      obtain ⟨ihsome, ihnone⟩ := ih (resolveStep data strategy options acc e) hnd' hmem'
      constructor
      · intro v s m hre
        obtain ⟨hd, hs, hl⟩ := ihsome v s m hre
        exact ⟨by rw [List.foldl_cons]; exact hd, by rw [List.foldl_cons]; exact hs,
          by rw [List.foldl_cons]; rw [hl, hstep.2.2]⟩
      · intro hre
        obtain ⟨hd, hs, hl⟩ := ihnone hre
        exact ⟨by rw [List.foldl_cons]; exact hd.trans hstep.1,
          by rw [List.foldl_cons]; exact hs.trans hstep.2.1,
          by rw [List.foldl_cons]; exact hl.trans hstep.2.2⟩

/-- A conflicted parameter whose entry resolves to `(v, s, m)` ends up with
exactly that value, source and a single log entry. -/
theorem resolveConflicts_lookup_some (data : List (String × Value))
    (conflicts : List (String × List Candidate)) (strategy : String)
    (options : ResolveOptions) (p : String) (L : List Candidate) (v : Value) (s m : String)
    (hnd : (conflicts.map Prod.fst).Nodup) (hmem : (p, L) ∈ conflicts)
    (hre : resolveEntry data strategy options p L = some (v, s, m)) :
    jsGet (resolveConflicts data conflicts strategy options).data p = some v ∧
    jsGet (resolveConflicts data conflicts strategy options).sources p = some s ∧
    (resolveConflicts data conflicts strategy options).resolutionLog.filter
      (fun le => le.parameter = p) = [⟨p, L, v, s, m⟩] := by
  obtain ⟨ihsome, _⟩ :=
    resolveFold_mem data strategy options p L conflicts ⟨data, options.dataSources, []⟩ hnd hmem
  simpa [resolveConflicts] using ihsome v s m hre

/-- A conflicted parameter whose entry does not resolve keeps its incoming
value and source and produces no log entry. -/
theorem resolveConflicts_lookup_none (data : List (String × Value))
    (conflicts : List (String × List Candidate)) (strategy : String)
    (options : ResolveOptions) (p : String) (L : List Candidate)
    (hnd : (conflicts.map Prod.fst).Nodup) (hmem : (p, L) ∈ conflicts)
    (hre : resolveEntry data strategy options p L = none) :
    jsGet (resolveConflicts data conflicts strategy options).data p = jsGet data p ∧
    jsGet (resolveConflicts data conflicts strategy options).sources p =
      jsGet options.dataSources p ∧
    (resolveConflicts data conflicts strategy options).resolutionLog.filter
      (fun le => le.parameter = p) = [] := by
  obtain ⟨_, ihnone⟩ :=
    resolveFold_mem data strategy options p L conflicts ⟨data, options.dataSources, []⟩ hnd hmem
  simpa [resolveConflicts] using ihnone hre

end LEEDDataConsolidator

/-! ## Evaluator lemmas -/

/-- A compliant Option 2 assessment has recorded no non-compliance and no
gaps. -/
theorem assessOption2_compliant_empty (data : Data) (units : String)
    (h : (EACr6RuleSet.assessOption2 data units).compliant = true) :
    (EACr6RuleSet.assessOption2 data units).nonCompliant = [] ∧
    (EACr6RuleSet.assessOption2 data units).gaps = [] := by
  unfold EACr6RuleSet.assessOption2 at *
  split_ifs at * <;> simp_all <;> split_ifs at * <;> simp_all

/-- C1: for both credit evaluators, an awarded result carries empty `gaps`
and empty `nonCompliant` lists. -/
theorem C1_awarded_implies_empty (data : Data) (units : String) :
    ((EACr6RuleSet.assess data units).awarded = true →
      (EACr6RuleSet.assess data units).gaps = [] ∧
      (EACr6RuleSet.assess data units).nonCompliant = []) ∧
    ((IEQCr5RuleSet.assess data units).awarded = true →
      (IEQCr5RuleSet.assess data units).gaps = [] ∧
      (IEQCr5RuleSet.assess data units).nonCompliant = []) := by
  constructor
  · intro h
    by_cases h1 : (EACr6RuleSet.hasBasicRefrigerantData data &&
        (EACr6RuleSet.assessOption1 data).compliant) = true
    · simp [EACr6RuleSet.assess, h1]
    · by_cases h2 : ((EACr6RuleSet.assessOption2 data units).compliant &&
          (EACr6RuleSet.assessOption2 data units).gaps.isEmpty) = true
      · have hc : (EACr6RuleSet.assessOption2 data units).compliant = true :=
          ((Bool.and_eq_true _ _).mp h2).1
        have hg : (EACr6RuleSet.assessOption2 data units).gaps = [] :=
          List.isEmpty_iff.mp ((Bool.and_eq_true _ _).mp h2).2
        simp [EACr6RuleSet.assess, h1, h2, hc, hg,
          (assessOption2_compliant_empty data units hc).1]
      · exfalso
        simp [EACr6RuleSet.assess, h1, h2] at h
  · intro h
    simp only [IEQCr5RuleSet.assess] at h ⊢
    simp only [Bool.and_eq_true, List.isEmpty_iff] at h
    obtain ⟨⟨⟨hp1, hp2⟩, hg⟩, hn⟩ := h
    simp [hg, hn]

/-- C2 (amended, main engine): whenever `EACr6RuleSet.assess` does not
award the credit, its `gaps` and `nonCompliant` lists are exactly those of
Option 2, the last evaluated option; nothing from an abandoned Option 1 is
carried over. -/
theorem C2_last_option_lists (data : Data) (units : String)
    (h : (EACr6RuleSet.assess data units).awarded = false) :
    (EACr6RuleSet.assess data units).gaps = (EACr6RuleSet.assessOption2 data units).gaps ∧
    (EACr6RuleSet.assess data units).nonCompliant =
      (EACr6RuleSet.assessOption2 data units).nonCompliant := by
  simp only [EACr6RuleSet.assess] at *
  split_ifs at * with h1 h2
  simp_all

/-- C2 (counterexample for the duplicated engine): on the empty parameter
map no option succeeds, yet `RuleEngine.evaluateEACr6` reports the union of
both options' gaps — `"Refrigerant Used"` comes from the abandoned
Option 1, not from Option 2. -/
theorem C2_union_counterexample :
    (RuleEngine.evaluateEACr6 [] "IP").status = "non_compliant" ∧
    "Refrigerant Used" ∈ (RuleEngine.evaluateEACr6 [] "IP").gaps ∧
    "Refrigerant Used" ∉ (RuleEngine.checkEACr6Option2 [] "IP").gaps ∧
    (RuleEngine.evaluateEACr6 [] "IP").gaps ≠ (RuleEngine.checkEACr6Option2 [] "IP").gaps := by
  decide

/-- C9: `option = 1` is reported only together with a full award, and
whenever Option 1 is skipped or not fully compliant the result reports
`option = 2`. -/
theorem C9_option_one_iff_award (data : Data) (units : String) :
    ((EACr6RuleSet.assess data units).option = some 1 →
      (EACr6RuleSet.assess data units).awarded = true ∧
      (EACr6RuleSet.assess data units).points = (EACr6RuleSet.assess data units).maxPoints) ∧
    ((EACr6RuleSet.hasBasicRefrigerantData data &&
        (EACr6RuleSet.assessOption1 data).compliant) = false →
      (EACr6RuleSet.assess data units).option = some 2) := by
  simp only [EACr6RuleSet.assess]
  split_ifs with h1 h2 <;> simp_all

/-- C10 (amended, main engine): a string-valued `"0"` for ODP fails the
strict `!== 0` test, so Option 1 is abandoned and the assessment reports
Option 2. -/
theorem C10_odp_string_zero_option2 (data : Data) (units : String)
    (h : jsGet data "ODP" = some (Value.str "0")) :
    (EACr6RuleSet.assessOption1 data).compliant = false ∧
    (EACr6RuleSet.assess data units).option = some 2 := by
  have hopt1 : (EACr6RuleSet.assessOption1 data).compliant = false := by
    unfold EACr6RuleSet.assessOption1 EACr6RuleSet.option1ODP
    rw [h]
    split_ifs <;> simp_all
  refine ⟨hopt1, ?_⟩
  simp only [EACr6RuleSet.assess]
  split_ifs with h1 h2
  · rw [Bool.and_eq_true, hopt1] at h1
    exact absurd h1.2 (by simp)
  · rfl
  · rfl

/-- C3: with Option 1 satisfied exactly at the boundary (Refrigerant Used
and Confirmation Statement present, ODP the number 0, GWP the number
49.999), the credit is awarded in full via option 1, whatever else the
parameter map contains. -/
theorem C3_boundary_option1_award (data : Data) (units : String)
    (hru : truthy (jsGet data "Refrigerant Used") = true)
    (hconf : truthy (jsGet data "Confirmation Statement") = true)
    (hodp : jsGet data "ODP" = some (Value.num 0))
    (hgwp : jsGet data "GWP" = some (Value.num (49999 / 1000))) :
    (EACr6RuleSet.assess data units).awarded = true ∧
    (EACr6RuleSet.assess data units).points = (EACr6RuleSet.assess data units).maxPoints ∧
    (EACr6RuleSet.assess data units).option = some 1 ∧
    (EACr6RuleSet.assess data units).option ≠ some 2 := by
  have hge : jsGeNum (Value.num (49999 / 1000)) 50 = false := by
    norm_num [jsGeNum, toNumberVal]
  have hopt1 : EACr6RuleSet.assessOption1 data =
      ⟨true, [], ⟨true, true, true, true⟩⟩ := by
    simp [EACr6RuleSet.assessOption1, EACr6RuleSet.option1ODP, EACr6RuleSet.option1GWP,
      EACr6RuleSet.option1Confirmation, EACr6RuleSet.option1Finish, hru, hconf, hodp, hgwp, hge]
  have hb : EACr6RuleSet.hasBasicRefrigerantData data = true := by
    simp [EACr6RuleSet.hasBasicRefrigerantData, hru, hodp, hgwp]
  simp [EACr6RuleSet.assess, hb, hopt1]

/-- C5: the space-percentage calculation fails exactly when the total is
not positive, and otherwise returns the raw `(controlled/total)*100`
without clamping. -/
theorem C5_space_percentage_contract (t c : ℚ) :
    (t ≤ 0 →
      CalculationModule.calculateSpacePercentage (some (Value.num t)) (some (Value.num c)) =
        Except.error "Total spaces must be greater than 0") ∧
    (0 < t →
      CalculationModule.calculateSpacePercentage (some (Value.num t)) (some (Value.num c)) =
        Except.ok (some (c / t * 100))) := by
  constructor
  · intro h
    simp [CalculationModule.calculateSpacePercentage, parseFloatVal, jleQ, h]
  · intro h
    have hne : t ≠ 0 := ne_of_gt h
    simp [CalculationModule.calculateSpacePercentage, parseFloatVal, jleQ, jdiv, jmul,
      not_le.mpr h, hne]

/-- C6: when the space-percentage calculation fails inside Part 2 of the
thermal-comfort credit, the error is caught and folded into the
non-compliance list as a single message, and the evaluation still returns a
complete assembled result. -/
theorem C6_calc_error_folded (data : Data) (units : String) (e : String)
    (ht : truthy (jsGet data "Total Individual Spaces") = true)
    (hcs : truthy (jsGet data "Controlled Spaces") = true)
    (herr : CalculationModule.calculateSpacePercentage (jsGet data "Total Individual Spaces")
      (jsGet data "Controlled Spaces") = Except.error e) :
    (IEQCr5RuleSet.assessPart2 data).nonCompliant = ["Space calculation error: " ++ e] ∧
    (IEQCr5RuleSet.assess data units).nonCompliant =
      (IEQCr5RuleSet.assessPart1 data).nonCompliant ++ ["Space calculation error: " ++ e] ∧
    (IEQCr5RuleSet.assess data units).gaps =
      (IEQCr5RuleSet.assessPart1 data).gaps ++ (IEQCr5RuleSet.assessPart2 data).gaps ∧
    (IEQCr5RuleSet.assess data units).awarded = false := by
  have hp2 : (IEQCr5RuleSet.assessPart2 data).nonCompliant =
      ["Space calculation error: " ++ e] := by
    simp [IEQCr5RuleSet.assessPart2, ht, hcs, herr]
  refine ⟨hp2, ?_, ?_, ?_⟩
  · simp [IEQCr5RuleSet.assess, hp2]
  · simp [IEQCr5RuleSet.assess]
  · simp [IEQCr5RuleSet.assess, hp2]

/-- C10 (counterexample for the duplicated engine):
`RuleEngine.checkEACr6Option1` accepts the string `'0'` for ODP
(`data['ODP'] !== 0 && data['ODP'] !== '0'`), so with ODP supplied as the
string `"0"` Option 1 succeeds and the evaluation does NOT fall through to
Option 2. -/
theorem C10_duplicate_engine_counterexample :
    jsGet [("Refrigerant Used", Value.str "R-32"), ("ODP", Value.str "0"),
           ("GWP", Value.num 40), ("Confirmation Statement", Value.str "Yes")] "ODP" =
      some (Value.str "0") ∧
    (RuleEngine.checkEACr6Option1
      [("Refrigerant Used", Value.str "R-32"), ("ODP", Value.str "0"),
       ("GWP", Value.num 40), ("Confirmation Statement", Value.str "Yes")]).compliant = true ∧
    (RuleEngine.evaluateEACr6
      [("Refrigerant Used", Value.str "R-32"), ("ODP", Value.str "0"),
       ("GWP", Value.num 40), ("Confirmation Statement", Value.str "Yes")] "IP").status =
      "compliant" ∧
    (RuleEngine.evaluateEACr6
      [("Refrigerant Used", Value.str "R-32"), ("ODP", Value.str "0"),
       ("GWP", Value.num 40), ("Confirmation Statement", Value.str "Yes")] "IP").details =
      ["Option 1: No Refrigerants or Low-Impact Refrigerants"] := by
  decide


/-! ## Consolidator claims -/

open LEEDDataConsolidator

/-- C4: under the `latest` policy every conflicted parameter resolves to
the value and source of the last candidate in its conflict list, i.e. the
document appearing last in document-processing order. -/
theorem C4_latest_resolution (docs : MultiDocData) (creditId p : String)
    (custom : List (String × ℚ)) (manual : List (String × ManualChoice))
    (L : List Candidate) (c : Candidate)
    (hL : jsGet (consolidateData docs creditId ⟨"latest", custom, manual⟩).conflicts p = some L)
    (hlast : L.getLast? = some c) :
    jsGet (consolidateData docs creditId ⟨"latest", custom, manual⟩).data p = some c.value ∧
    jsGet (consolidateData docs creditId ⟨"latest", custom, manual⟩).sources p =
      some c.document := by
  have hnd := nodup_conflictsKeys docs creditId
  have hL' : jsGet (consolidationState docs creditId).conflicts p = some L := by
    simpa [consolidateData] using hL
  have hmem := jsGet_mem _ _ _ hL'
  have hre : resolveEntry (consolidationState docs creditId).consolidatedData "latest"
      ⟨custom, manual, (consolidationState docs creditId).dataSources⟩ p L =
      some (c.value, c.document, "latest-document") := by
    unfold resolveEntry
    rw [if_neg (by decide), if_pos rfl, hlast]
  obtain ⟨hd, hs, -⟩ := resolveConflicts_lookup_some
    (consolidationState docs creditId).consolidatedData
    (consolidationState docs creditId).conflicts "latest"
    ⟨custom, manual, (consolidationState docs creditId).dataSources⟩ p L c.value c.document
    "latest-document" hnd hmem hre
  constructor
  · simpa [consolidateData] using hd
  · simpa [consolidateData] using hs

/-- C7: a parameter supplied non-empty by at least two documents gets a
conflict entry listing exactly all suppliers in processing order — the
first candidate being the first-recorded document and value — with no
condition on the values being different. -/
theorem C7_conflicts_collect_all_suppliers (docs : MultiDocData) (creditId p : String)
    (options : ConsOptions) (h2 : 2 ≤ (suppliers creditId docs p).length) :
    jsGet (consolidateData docs creditId options).conflicts p =
      some (suppliers creditId docs p) ∧
    jsGet (consolidationState docs creditId).consolidatedData p =
      (suppliers creditId docs p).head?.map Candidate.value ∧
    jsGet (consolidationState docs creditId).dataSources p =
      (suppliers creditId docs p).head?.map Candidate.document := by
  obtain ⟨h1, hsrc, hconf⟩ := consolidation_characterization docs creditId p
  refine ⟨?_, h1, hsrc⟩
  have hc : jsGet (consolidationState docs creditId).conflicts p =
      some (suppliers creditId docs p) := by rw [hconf, if_pos h2]
  simpa [consolidateData] using hc

/-- C8: under the `manual` policy a conflicted parameter with no manual
choice, or whose chosen document is not among the candidates, is left
unresolved: the output keeps the first-recorded value and source, and the
resolution log has no entry for it. -/
theorem C8_manual_unresolved (docs : MultiDocData) (creditId p : String)
    (custom : List (String × ℚ)) (manual : List (String × ManualChoice)) (L : List Candidate)
    (hL : jsGet (consolidateData docs creditId ⟨"manual", custom, manual⟩).conflicts p = some L)
    (hchoice : ∀ mc, jsGet manual p = some mc → mc.document ∉ L.map Candidate.document) :
    jsGet (consolidateData docs creditId ⟨"manual", custom, manual⟩).data p =
      jsGet (consolidationState docs creditId).consolidatedData p ∧
    jsGet (consolidateData docs creditId ⟨"manual", custom, manual⟩).sources p =
      jsGet (consolidationState docs creditId).dataSources p ∧
    (consolidateData docs creditId ⟨"manual", custom, manual⟩).resolutionLog.filter
      (fun le => le.parameter = p) = [] := by
  have hnd := nodup_conflictsKeys docs creditId
  have hL' : jsGet (consolidationState docs creditId).conflicts p = some L := by
    simpa [consolidateData] using hL
  have hmem := jsGet_mem _ _ _ hL'
  have hre : resolveEntry (consolidationState docs creditId).consolidatedData "manual"
      ⟨custom, manual, (consolidationState docs creditId).dataSources⟩ p L = none := by
    unfold resolveEntry
    rw [if_neg (by decide), if_neg (by decide), if_pos rfl]
    rcases hmc : jsGet manual p with _ | mc
    · rfl
    · have hfind : L.find? (fun c => c.document = mc.document) = none := by
        rw [List.find?_eq_none]
        intro c hc hcon
        simp only [decide_eq_true_eq] at hcon
        exact hchoice mc hmc (hcon ▸ List.mem_map_of_mem Candidate.document hc)
      simp [hfind]
  obtain ⟨hd, hs, hl⟩ := resolveConflicts_lookup_none
    (consolidationState docs creditId).consolidatedData
    (consolidationState docs creditId).conflicts "manual"
    ⟨custom, manual, (consolidationState docs creditId).dataSources⟩ p L hnd hmem hre
  refine ⟨?_, ?_, ?_⟩
  · simpa [consolidateData] using hd
  · simpa [consolidateData] using hs
  · simpa [consolidateData] using hl

/-! ## Witnesses -/

/-- Witness for C1: concrete awarded evaluations of both credits have empty
gap and non-compliance lists. -/
theorem C1_witness :
    ((EACr6RuleSet.assess dataEACr6Award "IP").gaps = [] ∧
     (EACr6RuleSet.assess dataEACr6Award "IP").nonCompliant = []) ∧
    ((IEQCr5RuleSet.assess dataIEQAward "IP").gaps = [] ∧
     (IEQCr5RuleSet.assess dataIEQAward "IP").nonCompliant = []) := by
  constructor
  · exact (C1_awarded_implies_empty dataEACr6Award "IP").1 (by decide)
  · refine (C1_awarded_implies_empty dataIEQAward "IP").2 ?_
    simp [IEQCr5RuleSet.assess, IEQCr5RuleSet.assessPart1, IEQCr5RuleSet.assessPart2,
      CalculationModule.calculateSpacePercentage, dataIEQAward, truthy, jsGet, parseFloatVal,
      jdiv, jmul, jgtQ, jleQ, jltQ, jgeQ, isUndefOrNull, IEQCr5RuleSet.environmentalParams]
    norm_num

/-- Witness for C2 (amended): on the empty map the main engine's lists are
exactly Option 2's. -/
theorem C2_witness :
    (EACr6RuleSet.assess [] "IP").gaps = (EACr6RuleSet.assessOption2 [] "IP").gaps ∧
    (EACr6RuleSet.assess [] "IP").nonCompliant =
      (EACr6RuleSet.assessOption2 [] "IP").nonCompliant :=
  C2_last_option_lists [] "IP" (by decide)

/-- Witness for C3 at the concrete boundary map. -/
theorem C3_witness :
    (EACr6RuleSet.assess dataC3 "IP").awarded = true ∧
    (EACr6RuleSet.assess dataC3 "IP").points = (EACr6RuleSet.assess dataC3 "IP").maxPoints ∧
    (EACr6RuleSet.assess dataC3 "IP").option = some 1 ∧
    (EACr6RuleSet.assess dataC3 "IP").option ≠ some 2 :=
  C3_boundary_option1_award dataC3 "IP" (by decide) (by decide) rfl rfl

/-- Witness for C4: the 675-then-700 GWP conflict resolves to 700 from the
last document. -/
theorem C4_witness :
    jsGet (consolidateData gwpConflictDocs "EACr6" ⟨"latest", [], []⟩).data "GWP" =
      some (Value.num 700) ∧
    jsGet (consolidateData gwpConflictDocs "EACr6" ⟨"latest", [], []⟩).sources "GWP" =
      some "field_report" :=
  C4_latest_resolution gwpConflictDocs "EACr6" "GWP" [] []
    [⟨"design_narrative", Value.num 675⟩, ⟨"field_report", Value.num 700⟩]
    ⟨"field_report", Value.num 700⟩ (by decide) (by decide)

/-- Witness for C5: zero total fails, and 8 controlled of 4 total yields an
unclamped 200%. -/
theorem C5_witness :
    CalculationModule.calculateSpacePercentage (some (Value.num 0)) (some (Value.num 5)) =
      Except.error "Total spaces must be greater than 0" ∧
    CalculationModule.calculateSpacePercentage (some (Value.num 4)) (some (Value.num 8)) =
      Except.ok (some (8 / 4 * 100)) :=
  ⟨(C5_space_percentage_contract 0 5).1 le_rfl,
   (C5_space_percentage_contract 4 8).2 (by norm_num)⟩

/-- Witness for C6: the string `"0"` for total spaces triggers the thrown
calculation error, which is folded into a single non-compliance message. -/
theorem C6_witness :
    truthy (jsGet dataSpacesError "Total Individual Spaces") = true ∧
    (IEQCr5RuleSet.assessPart2 dataSpacesError).nonCompliant =
      ["Space calculation error: Total spaces must be greater than 0"] ∧
    (IEQCr5RuleSet.assess dataSpacesError "IP").awarded = false := by
  have h := C6_calc_error_folded dataSpacesError "IP" "Total spaces must be greater than 0"
    (by decide) (by decide) rfl
  exact ⟨by decide, h.1, h.2.2.2⟩

/-- Witness for C7: identical values from two documents still conflict. -/
theorem C7_witness :
    2 ≤ (suppliers "EACr6" identicalValueDocs "GWP").length ∧
    jsGet (consolidateData identicalValueDocs "EACr6" ⟨"priority", [], []⟩).conflicts "GWP" =
      some [⟨"design_narrative", Value.num 675⟩, ⟨"field_report", Value.num 675⟩] := by
  refine ⟨by decide, ?_⟩
  have h := (C7_conflicts_collect_all_suppliers identicalValueDocs "EACr6" "GWP"
    ⟨"priority", [], []⟩ (by decide)).1
  rw [h]
  decide

/-- Witness for C8: a manual choice naming a document outside the conflict
leaves the first-recorded value and source and no log entry. -/
theorem C8_witness :
    jsGet (consolidateData gwpConflictDocs "EACr6"
      ⟨"manual", [], [("GWP", ⟨"nonexistent_doc"⟩)]⟩).data "GWP" = some (Value.num 675) ∧
    jsGet (consolidateData gwpConflictDocs "EACr6"
      ⟨"manual", [], [("GWP", ⟨"nonexistent_doc"⟩)]⟩).sources "GWP" =
      some "design_narrative" ∧
    (consolidateData gwpConflictDocs "EACr6"
      ⟨"manual", [], [("GWP", ⟨"nonexistent_doc"⟩)]⟩).resolutionLog.filter
      (fun le => le.parameter = "GWP") = [] := by
  have hc : ∀ mc, jsGet [("GWP", (⟨"nonexistent_doc"⟩ : ManualChoice))] "GWP" = some mc →
      mc.document ∉
        ([⟨"design_narrative", Value.num 675⟩,
          ⟨"field_report", Value.num 700⟩] : List Candidate).map Candidate.document := by
    intro mc hmc
    have hmcv : mc = ⟨"nonexistent_doc"⟩ := by
      simp [jsGet] at hmc
      exact hmc.symm
    subst hmcv
    decide
  have h := C8_manual_unresolved gwpConflictDocs "EACr6" "GWP" []
    [("GWP", ⟨"nonexistent_doc"⟩)]
    [⟨"design_narrative", Value.num 675⟩, ⟨"field_report", Value.num 700⟩]
    (by decide) hc
  refine ⟨?_, ?_, h.2.2⟩
  · rw [h.1]; decide
  · rw [h.2.1]; decide

/-- Witness for C9: a concrete option-1 award, and option 2 reported on the
empty map. -/
theorem C9_witness :
    (EACr6RuleSet.assess dataEACr6Award "IP").awarded = true ∧
    (EACr6RuleSet.assess dataEACr6Award "IP").points =
      (EACr6RuleSet.assess dataEACr6Award "IP").maxPoints ∧
    (EACr6RuleSet.assess [] "IP").option = some 2 := by
  have h := (C9_option_one_iff_award dataEACr6Award "IP").1 (by decide)
  exact ⟨h.1, h.2, (C9_option_one_iff_award [] "IP").2 (by decide)⟩

/-- Witness for C10 (amended): the concrete ODP-as-string map falls through
to Option 2 in the main engine. -/
theorem C10_witness :
    (EACr6RuleSet.assessOption1 dataOdpString).compliant = false ∧
    (EACr6RuleSet.assess dataOdpString "IP").option = some 2 :=
  C10_odp_string_zero_option2 dataOdpString "IP" (by decide)

end LEED
